import Mathlib

/-!
Shallow embedding of the nexus GPU body/shape encoding subsystem
(src/shapes.rs, src/dynamics/body.rs, src/dynamics/integrate.rs).

Modelling conventions:
* Every f32 field of a GPU record is modelled by its 32-bit pattern, a
  natural number (below 2 ^ 32 at every realistic call site).  The source
  never performs float arithmetic on these fields: it only stores values
  and bit-casts tags and ranges with f32.from_bits / f32.to_bits, which
  are mutually inverse bit-level casts, so storing the pattern is exact.
* Mass-property scalars (used arithmetically by the From impl) are
  modelled by rationals.
* External collaborators (rapier pose transforms, parry height-field
  tessellation, the GPU upload and dispatch backend) are taken as
  function parameters, so the theorems hold for every behaviour of the
  collaborator.
* A Rust panic is modelled as Option.none; a backend error as Except.error.
* Rust `as u32` casts are modelled by `% 2 ^ 32`.
-/

namespace Nexus

/-- A 2-D point of f32 coordinates, each modelled by its bit pattern. -/
structure Pt2 where
  x : Nat
  y : Nat
deriving DecidableEq

/-- A 3-D point of f32 coordinates, each modelled by its bit pattern. -/
structure Pt3 where
  x : Nat
  y : Nat
  z : Nat
deriving DecidableEq

/-- A 4-component f32 vector, each component modelled by its bit pattern. -/
structure Vector4 where
  x : Nat
  y : Nat
  z : Nat
  w : Nat
deriving DecidableEq

/-- GPU-compatible shape representation: two 4-component vectors, the shape
type tag stored (bit-cast) in `a.w` (src/shapes.rs, struct GpuShape). -/
structure GpuShape where
  a : Vector4
  b : Vector4
deriving DecidableEq

/-- Decoded shape type, the image of GpuShape.shape_type
(rapier ShapeType variants reachable from src/shapes.rs shape_type). -/
inductive ShapeType where
  | Ball
  | Cuboid
  | Capsule
  | Cone
  | Cylinder
  | Polyline
  | TriMesh
deriving DecidableEq

/-- Storage for shape vertex data, 3-D configuration
(src/shapes.rs, struct ShapeBuffers). -/
structure ShapeBuffers where
  vertices : List Pt3
deriving DecidableEq

/-- Storage for shape vertex data, 2-D configuration. -/
structure ShapeBuffers2 where
  vertices : List Pt2
deriving DecidableEq

/-- GpuShape::ball — tag Ball = 0, radius in a.x (src/shapes.rs). -/
def GpuShape.ball (radius : Nat) : GpuShape :=
  ⟨⟨radius, 0, 0, 0⟩, ⟨0, 0, 0, 0⟩⟩

/-- GpuShape::cuboid, 3-D configuration — tag Cuboid = 1, half-extents in
a.xyz (src/shapes.rs). -/
def GpuShape.cuboid (hx hy hz : Nat) : GpuShape :=
  ⟨⟨hx, hy, hz, 1⟩, ⟨0, 0, 0, 0⟩⟩

/-- GpuShape::cuboid, 2-D configuration — tag Cuboid = 1, half-extents in
a.xy (src/shapes.rs). -/
def GpuShape.cuboid2 (hx hy : Nat) : GpuShape :=
  ⟨⟨hx, hy, 0, 1⟩, ⟨0, 0, 0, 0⟩⟩

/-- GpuShape::capsule, 3-D configuration — tag Capsule = 2, first endpoint
in a.xyz, second endpoint in b.xyz, radius in b.w (src/shapes.rs). -/
def GpuShape.capsule (pa pb : Pt3) (radius : Nat) : GpuShape :=
  ⟨⟨pa.x, pa.y, pa.z, 2⟩, ⟨pb.x, pb.y, pb.z, radius⟩⟩

/-- GpuShape::capsule, 2-D configuration (src/shapes.rs). -/
def GpuShape.capsule2 (pa pb : Pt2) (radius : Nat) : GpuShape :=
  ⟨⟨pa.x, pa.y, 0, 2⟩, ⟨pb.x, pb.y, 0, radius⟩⟩

/-- GpuShape::polyline — tag Polyline = 5, vertex range bit-cast into
a.x and a.y (src/shapes.rs). -/
def GpuShape.polyline (vertex_range : Nat × Nat) : GpuShape :=
  ⟨⟨vertex_range.1, vertex_range.2, 0, 5⟩, ⟨0, 0, 0, 0⟩⟩

/-- GpuShape::trimesh — tag TriMesh = 6, vertex range bit-cast into
a.x and a.y (src/shapes.rs). -/
def GpuShape.trimesh (vertex_range : Nat × Nat) : GpuShape :=
  ⟨⟨vertex_range.1, vertex_range.2, 0, 6⟩, ⟨0, 0, 0, 0⟩⟩

/-- GpuShape::cone (3-D only) — tag Cone = 3, half-height in a.x, radius
in a.y (src/shapes.rs). -/
def GpuShape.cone (half_height radius : Nat) : GpuShape :=
  ⟨⟨half_height, radius, 0, 3⟩, ⟨0, 0, 0, 0⟩⟩

/-- GpuShape::cylinder (3-D only) — tag Cylinder = 4, half-height in a.x,
radius in a.y (src/shapes.rs). -/
def GpuShape.cylinder (half_height radius : Nat) : GpuShape :=
  ⟨⟨half_height, radius, 0, 4⟩, ⟨0, 0, 0, 0⟩⟩

/-- GpuShape::shape_type, 3-D configuration: decode the tag bit pattern in
a.w; the Rust panic on an unknown tag is modelled as none (src/shapes.rs). -/
def GpuShape.shape_type (s : GpuShape) : Option ShapeType :=
  match s.a.w with
  | 0 => some ShapeType.Ball
  | 1 => some ShapeType.Cuboid
  | 2 => some ShapeType.Capsule
  | 3 => some ShapeType.Cone
  | 4 => some ShapeType.Cylinder
  | 5 => some ShapeType.Polyline
  | 6 => some ShapeType.TriMesh
  | _ => none

/-- GpuShape::shape_type, 2-D configuration: the Cone and Cylinder arms are
compiled out, so tags 3 and 4 also panic (src/shapes.rs, cfg dim3 arms). -/
def GpuShape.shape_type2 (s : GpuShape) : Option ShapeType :=
  match s.a.w with
  | 0 => some ShapeType.Ball
  | 1 => some ShapeType.Cuboid
  | 2 => some ShapeType.Capsule
  | 5 => some ShapeType.Polyline
  | 6 => some ShapeType.TriMesh
  | _ => none

/-- GpuShape::polyline_rngs: assert the tag decodes to Polyline, then read
the bit-cast range from a.x and a.y; the assertion failure (and the panic
inside shape_type) is modelled as none (src/shapes.rs). -/
def GpuShape.polyline_rngs (s : GpuShape) : Option (Nat × Nat) :=
  match s.shape_type with
  | some ShapeType.Polyline => some (s.a.x, s.a.y)
  | _ => none

/-- GpuShape::trimesh_rngs: assert the tag decodes to TriMesh, then read
the bit-cast range from a.x and a.y (src/shapes.rs). -/
def GpuShape.trimesh_rngs (s : GpuShape) : Option (Nat × Nat) :=
  match s.shape_type with
  | some ShapeType.TriMesh => some (s.a.x, s.a.y)
  | _ => none

/-- The stored vertex range of a shape, through the source decoders:
whichever of polyline_rngs / trimesh_rngs applies. -/
def GpuShape.decodedRange (s : GpuShape) : Option (Nat × Nat) :=
  match s.polyline_rngs with
  | some r => some r
  | none => s.trimesh_rngs

/-- A parry height-field, 3-D: an external opaque payload (only its
tessellation, a collaborator function, is ever consulted). -/
structure HeightField3 where
  heights : List Nat
deriving DecidableEq

/-- A parry height-field, 2-D. -/
structure HeightField2 where
  heights : List Nat
deriving DecidableEq

/-- Parry TypedShape, 3-D configuration: the shape kinds dispatched on by
GpuShape::from_parry plus the kinds falling into its catch-all arm. -/
inductive TypedShape3 where
  | Ball (radius : Nat)
  | Cuboid (hx hy hz : Nat)
  | Capsule (pa pb : Pt3) (radius : Nat)
  | Polyline (vertices : List Pt3)
  | TriMesh (vertices : List Pt3)
  | HeightField (hf : HeightField3)
  | Cone (half_height radius : Nat)
  | Cylinder (half_height radius : Nat)
  | Segment (pa pb : Pt3)
  | Triangle (pa pb pc : Pt3)
  | HalfSpace
  | Compound
  | ConvexPolyhedron
  | RoundCuboid
  | RoundCylinder
  | RoundCone
  | RoundConvexPolyhedron
  | Custom
deriving DecidableEq

/-- Parry TypedShape, 2-D configuration (no Cone / Cylinder). -/
inductive TypedShape2 where
  | Ball (radius : Nat)
  | Cuboid (hx hy : Nat)
  | Capsule (pa pb : Pt2) (radius : Nat)
  | Polyline (vertices : List Pt2)
  | TriMesh (vertices : List Pt2)
  | HeightField (hf : HeightField2)
  | Segment (pa pb : Pt2)
  | Triangle (pa pb pc : Pt2)
  | HalfSpace
  | Compound
  | ConvexPolygon
  | RoundCuboid
  | RoundTriangle
  | RoundConvexPolygon
  | Custom
deriving DecidableEq

/-- GpuShape::from_parry, 3-D configuration.  `to_trimesh` is the external
parry height-field tessellation (HeightField::to_trimesh, vertices part).
Complex shapes append their vertices to the buffers and store the
`[base_id as u32, buffers.vertices.len() as u32]` range (src/shapes.rs). -/
def GpuShape.from_parry (to_trimesh : HeightField3 → List Pt3) (shape : TypedShape3)
    (buffers : ShapeBuffers) : Option GpuShape × ShapeBuffers :=
  match shape with
  | .Ball radius => (some (GpuShape.ball radius), buffers)
  | .Cuboid hx hy hz => (some (GpuShape.cuboid hx hy hz), buffers)
  | .Capsule pa pb radius => (some (GpuShape.capsule pa pb radius), buffers)
  | .Polyline vs =>
    let base_id := buffers.vertices.length
    let buffers2 : ShapeBuffers := ⟨buffers.vertices ++ vs⟩
    (some (GpuShape.polyline (base_id % 2 ^ 32, buffers2.vertices.length % 2 ^ 32)), buffers2)
  | .TriMesh vs =>
    let base_id := buffers.vertices.length
    let buffers2 : ShapeBuffers := ⟨buffers.vertices ++ vs⟩
    (some (GpuShape.trimesh (base_id % 2 ^ 32, buffers2.vertices.length % 2 ^ 32)), buffers2)
  | .HeightField hf =>
    let base_id := buffers.vertices.length
    let vtx := to_trimesh hf
    let buffers2 : ShapeBuffers := ⟨buffers.vertices ++ vtx⟩
    (some (GpuShape.trimesh (base_id % 2 ^ 32, buffers2.vertices.length % 2 ^ 32)), buffers2)
  | .Cone half_height radius => (some (GpuShape.cone half_height radius), buffers)
  | .Cylinder half_height radius => (some (GpuShape.cylinder half_height radius), buffers)
  | _ => (none, buffers)

/-- GpuShape::from_parry, 2-D configuration.  `to_polyline` is the external
parry height-field tessellation (HeightField::to_polyline, vertices part);
a 2-D height-field is encoded as a Polyline (src/shapes.rs). -/
def GpuShape.from_parry2 (to_polyline : HeightField2 → List Pt2) (shape : TypedShape2)
    (buffers : ShapeBuffers2) : Option GpuShape × ShapeBuffers2 :=
  match shape with
  | .Ball radius => (some (GpuShape.ball radius), buffers)
  | .Cuboid hx hy => (some (GpuShape.cuboid2 hx hy), buffers)
  | .Capsule pa pb radius => (some (GpuShape.capsule2 pa pb radius), buffers)
  | .Polyline vs =>
    let base_id := buffers.vertices.length
    let buffers2 : ShapeBuffers2 := ⟨buffers.vertices ++ vs⟩
    (some (GpuShape.polyline (base_id % 2 ^ 32, buffers2.vertices.length % 2 ^ 32)), buffers2)
  | .TriMesh vs =>
    let base_id := buffers.vertices.length
    let buffers2 : ShapeBuffers2 := ⟨buffers.vertices ++ vs⟩
    (some (GpuShape.trimesh (base_id % 2 ^ 32, buffers2.vertices.length % 2 ^ 32)), buffers2)
  | .HeightField hf =>
    let base_id := buffers.vertices.length
    let vtx := to_polyline hf
    let buffers2 : ShapeBuffers2 := ⟨buffers.vertices ++ vtx⟩
    (some (GpuShape.polyline (base_id % 2 ^ 32, buffers2.vertices.length % 2 ^ 32)), buffers2)
  | _ => (none, buffers)

/-- The vertices a 3-D shape conversion appends to the shared buffers
(empty for inline-encoded and unsupported kinds). -/
def appendedVerts3 (to_trimesh : HeightField3 → List Pt3) : TypedShape3 → List Pt3
  | .Polyline vs => vs
  | .TriMesh vs => vs
  | .HeightField hf => to_trimesh hf
  | _ => []

/-- The vertices a 2-D shape conversion appends to the shared buffers. -/
def appendedVerts2 (to_polyline : HeightField2 → List Pt2) : TypedShape2 → List Pt2
  | .Polyline vs => vs
  | .TriMesh vs => vs
  | .HeightField hf => to_polyline hf
  | _ => []

/-- The GpuShape produced by a 3-D conversion when the buffers held `base`
vertices beforehand (closed form of the first component of from_parry). -/
def parryOut3 (to_trimesh : HeightField3 → List Pt3) (shape : TypedShape3)
    (base : Nat) : Option GpuShape :=
  match shape with
  | .Ball radius => some (GpuShape.ball radius)
  | .Cuboid hx hy hz => some (GpuShape.cuboid hx hy hz)
  | .Capsule pa pb radius => some (GpuShape.capsule pa pb radius)
  | .Polyline vs => some (GpuShape.polyline (base % 2 ^ 32, (base + vs.length) % 2 ^ 32))
  | .TriMesh vs => some (GpuShape.trimesh (base % 2 ^ 32, (base + vs.length) % 2 ^ 32))
  | .HeightField hf =>
    some (GpuShape.trimesh (base % 2 ^ 32, (base + (to_trimesh hf).length) % 2 ^ 32))
  | .Cone half_height radius => some (GpuShape.cone half_height radius)
  | .Cylinder half_height radius => some (GpuShape.cylinder half_height radius)
  | _ => none

/-- The GpuShape produced by a 2-D conversion when the buffers held `base`
vertices beforehand. -/
def parryOut2 (to_polyline : HeightField2 → List Pt2) (shape : TypedShape2)
    (base : Nat) : Option GpuShape :=
  match shape with
  | .Ball radius => some (GpuShape.ball radius)
  | .Cuboid hx hy => some (GpuShape.cuboid2 hx hy)
  | .Capsule pa pb radius => some (GpuShape.capsule2 pa pb radius)
  | .Polyline vs => some (GpuShape.polyline (base % 2 ^ 32, (base + vs.length) % 2 ^ 32))
  | .TriMesh vs => some (GpuShape.trimesh (base % 2 ^ 32, (base + vs.length) % 2 ^ 32))
  | .HeightField hf =>
    some (GpuShape.polyline (base % 2 ^ 32, (base + (to_polyline hf).length) % 2 ^ 32))
  | _ => none

/-- The shape kinds the specification lists as supported in 3-D
(ball, cuboid, capsule, polyline, trimesh, height-field, cone, cylinder).
Modelled from the spec for comparison with from_parry. -/
def supportedShape3 : TypedShape3 → Bool
  | .Ball _ => true
  | .Cuboid _ _ _ => true
  | .Capsule _ _ _ => true
  | .Polyline _ => true
  | .TriMesh _ => true
  | .HeightField _ => true
  | .Cone _ _ => true
  | .Cylinder _ _ => true
  | _ => false

/-- The shape kinds the specification lists as supported in 2-D.
Modelled from the spec for comparison with from_parry2. -/
def supportedShape2 : TypedShape2 → Bool
  | .Ball _ => true
  | .Cuboid _ _ => true
  | .Capsule _ _ _ => true
  | .Polyline _ => true
  | .TriMesh _ => true
  | .HeightField _ => true
  | _ => false

/-- Whether a 3-D shape kind carries appended vertex data
(the Polyline / TriMesh / tessellated HeightField kinds of claim C3). -/
def hasVertexData3 : TypedShape3 → Bool
  | .Polyline _ => true
  | .TriMesh _ => true
  | .HeightField _ => true
  | _ => false

/-- Back-to-back encoding of a list of shapes into one shared vertex pool:
the iterated from_parry, exactly as the set-construction loop performs it
(src/dynamics/body.rs, the loop of GpuBodySet::from_rapier). -/
def encodeShapes (to_trimesh : HeightField3 → List Pt3) :
    List TypedShape3 → ShapeBuffers → List (Option GpuShape) × ShapeBuffers
  | [], b => ([], b)
  | s :: rest, b =>
    let out := GpuShape.from_parry to_trimesh s b
    let outs := encodeShapes to_trimesh rest out.2
    (out.1 :: outs.1, outs.2)

/-- Rapier MassProperties, 2-D configuration: the fields consulted by the
From impl in src/dynamics/body.rs, scalars modelled by rationals. -/
structure MassProperties where
  local_com : ℚ × ℚ
  inv_mass : ℚ
  inv_principal_inertia_sqrt : ℚ
deriving DecidableEq

/-- MassProperties::zero (rapier): every field zero. -/
def MassProperties.zero : MassProperties :=
  ⟨(0, 0), 0, 0⟩

/-- GpuMassProperties, 2-D configuration: scalar inverse angular inertia
(src/dynamics/body.rs, struct GpuMassProperties). -/
structure GpuMassProperties where
  inv_inertia : ℚ
  inv_mass : ℚ × ℚ
  com : ℚ × ℚ
deriving DecidableEq

/-- From MassProperties for GpuMassProperties, 2-D configuration:
inv_inertia is the square of inv_principal_inertia_sqrt, inv_mass is
broadcast per axis, com is the local center of mass
(src/dynamics/body.rs, impl From). -/
def GpuMassProperties.fromMassProperties (props : MassProperties) : GpuMassProperties :=
  ⟨props.inv_principal_inertia_sqrt * props.inv_principal_inertia_sqrt,
   (props.inv_mass, props.inv_mass),
   props.local_com⟩

/-- The zero mass-property on the GPU side: what the one-way / non-dynamic
branch of set construction encodes (From applied to MassProperties::zero). -/
def GpuMassProperties.zeroProps : GpuMassProperties :=
  ⟨0, (0, 0), (0, 0)⟩

/-- Default for GpuMassProperties, 2-D configuration: unit inverse inertia,
unit inverse mass broadcast, zero center of mass (src/dynamics/body.rs). -/
def GpuMassProperties.default : GpuMassProperties :=
  ⟨1, (1, 1), (0, 0)⟩

/-- Rapier MassProperties, 3-D configuration: the fields consulted in the
3-D build (the inverse-inertia reconstruction itself is external rapier
code, taken as a parameter where needed). -/
structure MassProperties3 where
  local_com : ℚ × ℚ × ℚ
  inv_mass : ℚ
  inv_principal_inertia_sqrt : ℚ × ℚ × ℚ
deriving DecidableEq

/-- MassProperties::zero, 3-D configuration. -/
def MassProperties3.zero : MassProperties3 :=
  ⟨(0, 0, 0), 0, (0, 0, 0)⟩

/-- GpuMassProperties, 3-D configuration: 3×3 inverse angular inertia. -/
structure GpuMassProperties3 where
  inv_inertia : Matrix (Fin 3) (Fin 3) ℚ
  inv_mass : ℚ × ℚ × ℚ
  com : ℚ × ℚ × ℚ

/-- From MassProperties for GpuMassProperties, 3-D configuration:
`reconstruct` is rapier's external reconstruct_inverse_inertia_matrix
(src/dynamics/body.rs, impl From, cfg dim3 arm). -/
def GpuMassProperties3.fromMassProperties
    (reconstruct : MassProperties3 → Matrix (Fin 3) (Fin 3) ℚ)
    (props : MassProperties3) : GpuMassProperties3 :=
  ⟨reconstruct props, (props.inv_mass, props.inv_mass, props.inv_mass), props.local_com⟩

/-- Default for GpuMassProperties, 3-D configuration: identity inverse
inertia matrix, unit inverse mass broadcast, zero center of mass
(src/dynamics/body.rs, cfg dim3 arm). -/
def GpuMassProperties3.default : GpuMassProperties3 :=
  ⟨1, (1, 1, 1), (0, 0, 0)⟩

/-- GpuVelocity, 2-D configuration (src/dynamics/body.rs). -/
structure GpuVelocity where
  linear : ℚ × ℚ
  angular : ℚ
deriving DecidableEq

/-- Default for GpuVelocity: the derived Default, every field zero. -/
def GpuVelocity.default : GpuVelocity :=
  ⟨(0, 0), 0⟩

/-- BodyDesc (src/dynamics/body.rs), with the GPU pose representation kept
as a type parameter (GpuSim is an external stensor type). -/
structure BodyDesc (Pose : Type) where
  local_mprops : GpuMassProperties
  mprops : GpuMassProperties
  vel : GpuVelocity
  pose : Pose
  shape : GpuShape

/-- Default for BodyDesc: default mass properties and velocity, the given
default pose, and a cuboid of half-extents 0.5 on every axis (0x3F000000
is the bit pattern of 0.5f32; src/dynamics/body.rs, impl Default). -/
def BodyDesc.default {Pose : Type} (pose0 : Pose) : BodyDesc Pose :=
  ⟨GpuMassProperties.default, GpuMassProperties.default, GpuVelocity.default,
   pose0, GpuShape.cuboid2 0x3F000000 0x3F000000⟩

/-- BodyCoupling (src/dynamics/body.rs): OneWay or TwoWays, default TwoWays. -/
inductive BodyCoupling where
  | OneWay
  | TwoWays
deriving DecidableEq

/-- BodyCouplingEntry (src/dynamics/body.rs): body handle, collider handle,
coupling mode; handles modelled as indices into the engine stores. -/
structure BodyCouplingEntry where
  body : Nat
  collider : Nat
  mode : BodyCoupling
deriving DecidableEq

/-- A rapier rigid body, 2-D configuration: the accessors consulted by
GpuBodySet::from_rapier, over an abstract isometry type. -/
structure RigidBody (Iso : Type) where
  linvel : ℚ × ℚ
  angvel : ℚ
  position : Iso
  local_mprops : MassProperties
  is_dynamic : Bool

/-- A rapier collider: the only accessor consulted is its shape. -/
structure Collider where
  shape : TypedShape2

/-- GpuBodySet, 2-D configuration: each GpuTensor is modelled by the host
list it was uploaded from (the external upload preserves content)
(src/dynamics/body.rs, struct GpuBodySet). -/
structure GpuBodySet (Pose : Type) where
  len : Nat
  shapes_data : List GpuShape
  mprops : List GpuMassProperties
  local_mprops : List GpuMassProperties
  vels : List GpuVelocity
  poses : List Pose
  shapes : List GpuShape
  shapes_local_vertex_buffers : List Pt2
  shapes_vertex_buffers : List Pt2
  shapes_vertex_collider_id : List Nat

/-- GpuBodySet::new (src/dynamics/body.rs): transpose the descriptor list
into column lists and upload each column in source order; `up` is the
external, fallible GPU buffer upload, whose first failure aborts with the
backend error. -/
def GpuBodySet.new {ε Pose : Type} (up : ∀ {α : Type}, List α → Except ε Unit)
    (bodies : List (BodyDesc Pose)) (pt_collider_ids : List Nat)
    (shape_buffers : ShapeBuffers2) : Except ε (GpuBodySet Pose) := do
  let local_mprops := bodies.map (fun b => b.local_mprops)
  let mprops := bodies.map (fun b => b.mprops)
  let vels := bodies.map (fun b => b.vel)
  let poses := bodies.map (fun b => b.pose)
  let shapes_data := bodies.map (fun b => b.shape)
  let _ ← up mprops
  let _ ← up local_mprops
  let _ ← up vels
  let _ ← up poses
  let _ ← up shapes_data
  let _ ← up shape_buffers.vertices
  let _ ← up shape_buffers.vertices
  let _ ← up pt_collider_ids
  pure ⟨bodies.length % 2 ^ 32, shapes_data, mprops, local_mprops, vels, poses,
        shapes_data, shape_buffers.vertices, shape_buffers.vertices, pt_collider_ids⟩

/-- The per-entry BodyDesc built by the from_rapier loop: velocity and pose
snapshots, and the coupling-mode mass-property policy — the source inertial
data only when the body is dynamic and the mode is TwoWays, otherwise
MassProperties::zero converted (src/dynamics/body.rs, loop body).
`transform_by` is rapier's external MassProperties::transform_by and
`toGpuPose` the external isometry-to-GpuSim conversion. -/
def mkBodyDesc {Iso Pose : Type} (transform_by : MassProperties → Iso → MassProperties)
    (toGpuPose : Iso → Pose) (rb : RigidBody Iso) (mode : BodyCoupling)
    (shape : GpuShape) : BodyDesc Pose :=
  let zero_mprops := MassProperties.zero
  let two_ways_coupling := rb.is_dynamic && decide (mode = BodyCoupling.TwoWays)
  { vel := ⟨rb.linvel, rb.angvel⟩
    pose := toGpuPose rb.position
    shape := shape
    local_mprops :=
      if two_ways_coupling then GpuMassProperties.fromMassProperties rb.local_mprops
      else GpuMassProperties.fromMassProperties zero_mprops
    mprops :=
      if two_ways_coupling then
        GpuMassProperties.fromMassProperties (transform_by rb.local_mprops rb.position)
      else GpuMassProperties.fromMassProperties zero_mprops }

/-- Accumulator of the from_rapier loop: the shared shape buffers, the
parallel vertex-owner-id list, and the descriptor list. -/
structure LoopState (Pose : Type) where
  bufs : ShapeBuffers2
  ids : List Nat
  descs : List (BodyDesc Pose)

/-- One iteration of the from_rapier loop over coupling entry `co_id`:
convert the collider's shape (panic, i.e. none, if unsupported), push
`co_id as u32` once per vertex the conversion appended, and push the
entry's BodyDesc (src/dynamics/body.rs, GpuBodySet::from_rapier). -/
def couplingStep {Iso Pose : Type} (to_polyline : HeightField2 → List Pt2)
    (transform_by : MassProperties → Iso → MassProperties) (toGpuPose : Iso → Pose)
    (bodies : Nat → RigidBody Iso) (colliders : Nat → Collider)
    (st : LoopState Pose) (co_id : Nat) (e : BodyCouplingEntry) :
    Option (LoopState Pose) :=
  match GpuShape.from_parry2 to_polyline (colliders e.collider).shape st.bufs with
  | (none, _) => none
  | (some shape, bufs2) =>
    some ⟨bufs2,
          st.ids ++ List.replicate (bufs2.vertices.length - st.bufs.vertices.length)
            (co_id % 2 ^ 32),
          st.descs ++ [mkBodyDesc transform_by toGpuPose (bodies e.body) e.mode shape]⟩

/-- The enumerated from_rapier loop, starting at entry index `co_id`. -/
def couplingLoop {Iso Pose : Type} (to_polyline : HeightField2 → List Pt2)
    (transform_by : MassProperties → Iso → MassProperties) (toGpuPose : Iso → Pose)
    (bodies : Nat → RigidBody Iso) (colliders : Nat → Collider) :
    Nat → List BodyCouplingEntry → LoopState Pose → Option (LoopState Pose)
  | _, [], st => some st
  | co_id, e :: rest, st =>
    match couplingStep to_polyline transform_by toGpuPose bodies colliders st co_id e with
    | none => none
    | some st2 =>
      couplingLoop to_polyline transform_by toGpuPose bodies colliders (co_id + 1) rest st2

/-- GpuBodySet::from_rapier (src/dynamics/body.rs): run the coupling loop
from empty buffers, then delegate to GpuBodySet::new.  The outer Option
models the panic on an unsupported shape; the inner Except the backend
upload errors. -/
def GpuBodySet.from_rapier {ε Iso Pose : Type}
    (up : ∀ {α : Type}, List α → Except ε Unit)
    (to_polyline : HeightField2 → List Pt2)
    (transform_by : MassProperties → Iso → MassProperties) (toGpuPose : Iso → Pose)
    (bodies : Nat → RigidBody Iso) (colliders : Nat → Collider)
    (coupling : List BodyCouplingEntry) : Option (Except ε (GpuBodySet Pose)) :=
  (couplingLoop to_polyline transform_by toGpuPose bodies colliders 0 coupling
      ⟨⟨[]⟩, [], []⟩).map
    (fun st => GpuBodySet.new up st.descs st.ids st.bufs)

/-- The vertex-owner ids the loop appends for the entries from index `i`
on: for each entry, one copy of `i as u32` per vertex its shape conversion
appends. -/
def idsFor (to_polyline : HeightField2 → List Pt2) (colliders : Nat → Collider) :
    Nat → List BodyCouplingEntry → List Nat
  | _, [] => []
  | i, e :: rest =>
    List.replicate (appendedVerts2 to_polyline (colliders e.collider).shape).length
        (i % 2 ^ 32) ++
      idsFor to_polyline colliders (i + 1) rest

/-- Like idsFor but with the untruncated entry index (agrees with idsFor
while the indices stay below 2 ^ 32). -/
def idsForPlain (to_polyline : HeightField2 → List Pt2) (colliders : Nat → Collider) :
    Nat → List BodyCouplingEntry → List Nat
  | _, [] => []
  | i, e :: rest =>
    List.replicate (appendedVerts2 to_polyline (colliders e.collider).shape).length i ++
      idsForPlain to_polyline colliders (i + 1) rest

/-- The vertices the loop appends to the shared pool for a list of entries. -/
def vtxFor (to_polyline : HeightField2 → List Pt2) (colliders : Nat → Collider) :
    List BodyCouplingEntry → List Pt2
  | [] => []
  | e :: rest =>
    appendedVerts2 to_polyline (colliders e.collider).shape ++
      vtxFor to_polyline colliders rest

/-- An always-succeeding GPU upload: the model of a functioning backend. -/
def alwaysOkUpload (ε : Type) : ∀ {α : Type}, List α → Except ε Unit :=
  fun _ => Except.ok ()

/-- IntegrateArgs (src/dynamics/integrate.rs): the four buffers passed to
the integration kernel, modelled by their host contents. -/
structure IntegrateArgs (Pose : Type) where
  mprops : List GpuMassProperties
  local_mprops : List GpuMassProperties
  poses : List Pose
  vels : List GpuVelocity

/-- One recorded GPU compute dispatch: its kernel arguments and grid size. -/
structure DispatchRecord (Pose : Type) where
  args : IntegrateArgs Pose
  grid : Nat × Nat × Nat

/-- The external GpuFunction::launch (slang_hal): submit one compute
dispatch to the pass; `submit` is the backend's acceptance, whose error is
returned unchanged, and on success the dispatch is appended to the pass. -/
def GpuFunction.launch {ε Pose : Type}
    (submit : DispatchRecord Pose → Option ε) (pass : List (DispatchRecord Pose))
    (args : IntegrateArgs Pose) (grid : Nat × Nat × Nat) :
    Except ε (List (DispatchRecord Pose)) :=
  match submit ⟨args, grid⟩ with
  | some e => Except.error e
  | none => Except.ok (pass ++ [⟨args, grid⟩])

/-- WgIntegrate::launch (src/dynamics/integrate.rs): build the argument
struct from the body set's buffers and launch the integrate kernel with
grid [bodies.len(), 1, 1]. -/
def WgIntegrate.launch {ε Pose : Type}
    (submit : DispatchRecord Pose → Option ε) (pass : List (DispatchRecord Pose))
    (bodies : GpuBodySet Pose) : Except ε (List (DispatchRecord Pose)) :=
  GpuFunction.launch submit pass
    ⟨bodies.mprops, bodies.local_mprops, bodies.poses, bodies.vels⟩ (bodies.len, 1, 1)

/-- A concrete dynamic rigid body used by concrete instantiations. -/
def demoRB : RigidBody Unit :=
  ⟨(0, 0), 0, (), ⟨(5, 7), 2, 3⟩, true⟩

/-- A concrete engine body store. -/
def demoBodies : Nat → RigidBody Unit := fun _ => demoRB

/-- A concrete engine collider store (ball colliders). -/
def demoColliders : Nat → Collider := fun _ => ⟨TypedShape2.Ball 7⟩

/-- A concrete engine collider store (2-vertex polyline colliders). -/
def demoCollidersPoly : Nat → Collider :=
  fun _ => ⟨TypedShape2.Polyline [⟨1, 2⟩, ⟨3, 4⟩]⟩

/-- A concrete height-field tessellation. -/
def demoTp : HeightField2 → List Pt2 := fun _ => []

/-- A concrete mass-property pose transform. -/
def demoTb : MassProperties → Unit → MassProperties := fun m _ => m

/-- A concrete isometry-to-GpuSim conversion. -/
def demoTg : Unit → Unit := fun _ => ()

/-- A concrete coupling entry. -/
def demoEntry : BodyCouplingEntry := ⟨0, 0, BodyCoupling.TwoWays⟩

/-- A concrete empty body set. -/
def demoSet : GpuBodySet Unit := ⟨0, [], [], [], [], [], [], [], [], []⟩

/-! Helper lemmas. -/

/-- Closed form of from_parry (3-D): output shape determined by the prior
buffer length, buffers extended by exactly the shape's appended vertices. -/
theorem from_parry_eq (tt : HeightField3 → List Pt3) (s : TypedShape3) (b : ShapeBuffers) :
    GpuShape.from_parry tt s b
      = (parryOut3 tt s b.vertices.length, ⟨b.vertices ++ appendedVerts3 tt s⟩) := by
  cases s <;>
    simp [GpuShape.from_parry, parryOut3, appendedVerts3, List.length_append]

/-- Closed form of from_parry (2-D). -/
theorem from_parry2_eq (tp : HeightField2 → List Pt2) (s : TypedShape2) (b : ShapeBuffers2) :
    GpuShape.from_parry2 tp s b
      = (parryOut2 tp s b.vertices.length, ⟨b.vertices ++ appendedVerts2 tp s⟩) := by
  cases s <;>
    simp [GpuShape.from_parry2, parryOut2, appendedVerts2, List.length_append]

/-- The decoders read back the range stored by the polyline constructor. -/
theorem decodedRange_polyline (r : Nat × Nat) :
    (GpuShape.polyline r).decodedRange = some r := rfl

/-- The decoders read back the range stored by the trimesh constructor. -/
theorem decodedRange_trimesh (r : Nat × Nat) :
    (GpuShape.trimesh r).decodedRange = some r := rfl

/-! Claim theorems about the shape record. -/

/-- C1: decoding the type of every constructed record yields the
constructor's tag (Ball = 0, Cuboid = 1, Capsule = 2, Cone = 3,
Cylinder = 4, Polyline = 5, TriMesh = 6), and the range decoders return
the range given to polyline / trimesh bit for bit. -/
theorem shape_roundtrip_tags :
    (∀ r, (GpuShape.ball r).shape_type = some ShapeType.Ball ∧ (GpuShape.ball r).a.w = 0)
  ∧ (∀ hx hy hz, (GpuShape.cuboid hx hy hz).shape_type = some ShapeType.Cuboid
      ∧ (GpuShape.cuboid hx hy hz).a.w = 1)
  ∧ (∀ pa pb r, (GpuShape.capsule pa pb r).shape_type = some ShapeType.Capsule
      ∧ (GpuShape.capsule pa pb r).a.w = 2)
  ∧ (∀ hh r, (GpuShape.cone hh r).shape_type = some ShapeType.Cone
      ∧ (GpuShape.cone hh r).a.w = 3)
  ∧ (∀ hh r, (GpuShape.cylinder hh r).shape_type = some ShapeType.Cylinder
      ∧ (GpuShape.cylinder hh r).a.w = 4)
  ∧ (∀ rng : Nat × Nat, (GpuShape.polyline rng).shape_type = some ShapeType.Polyline
      ∧ (GpuShape.polyline rng).a.w = 5)
  ∧ (∀ rng : Nat × Nat, (GpuShape.trimesh rng).shape_type = some ShapeType.TriMesh
      ∧ (GpuShape.trimesh rng).a.w = 6)
  ∧ (∀ rng : Nat × Nat, (GpuShape.polyline rng).polyline_rngs = some rng)
  ∧ (∀ rng : Nat × Nat, (GpuShape.trimesh rng).trimesh_rngs = some rng) :=
  ⟨fun _ => ⟨rfl, rfl⟩, fun _ _ _ => ⟨rfl, rfl⟩, fun _ _ _ => ⟨rfl, rfl⟩,
   fun _ _ => ⟨rfl, rfl⟩, fun _ _ => ⟨rfl, rfl⟩, fun _ => ⟨rfl, rfl⟩,
   fun _ => ⟨rfl, rfl⟩, fun _ => rfl, fun _ => rfl⟩

/-- C6: shape_type fails (panics) exactly on tag bit patterns outside the
known enumeration 0..6, and the range decoders fail exactly when the tag is
not, respectively, Polyline or TriMesh; e.g. both range decoders fail on a
Ball-tagged shape. -/
theorem decoder_panic_conditions :
    (∀ s : GpuShape, s.shape_type = none
      ↔ ¬(s.a.w = 0 ∨ s.a.w = 1 ∨ s.a.w = 2 ∨ s.a.w = 3 ∨ s.a.w = 4
          ∨ s.a.w = 5 ∨ s.a.w = 6))
  ∧ (∀ s : GpuShape, s.polyline_rngs = none ↔ s.shape_type ≠ some ShapeType.Polyline)
  ∧ (∀ s : GpuShape, s.trimesh_rngs = none ↔ s.shape_type ≠ some ShapeType.TriMesh)
  ∧ (∀ r, (GpuShape.ball r).polyline_rngs = none ∧ (GpuShape.ball r).trimesh_rngs = none) := by
  refine ⟨?_, ?_, ?_, fun r => ⟨rfl, rfl⟩⟩
  · rintro ⟨⟨ax, ay, az, aw⟩, b⟩
    rcases aw with _ | _ | _ | _ | _ | _ | _ | aw <;>
      simp [GpuShape.shape_type]
  · intro s
    unfold GpuShape.polyline_rngs
    rcases hst : s.shape_type with _ | t
    · simp [hst]
    · cases t <;> simp [hst]
  · intro s
    unfold GpuShape.trimesh_rngs
    rcases hst : s.shape_type with _ | t
    · simp [hst]
    · cases t <;> simp [hst]

/-- C7 counterexample: for the polyline of range (0, 3) the vertex-range
end 3 is stored among the primary parameters, in a.y, while b is entirely
zero — b.xyz does not hold the vertex-range end. -/
theorem secondary_params_counterexample :
    (GpuShape.polyline (0, 3)).shape_type = some ShapeType.Polyline
  ∧ (GpuShape.polyline (0, 3)).polyline_rngs = some (0, 3)
  ∧ (GpuShape.polyline (0, 3)).a.y = 3
  ∧ (GpuShape.polyline (0, 3)).b = ⟨0, 0, 0, 0⟩ :=
  ⟨rfl, rfl, rfl, rfl⟩

/-- C7 amended: b.xyz holds the secondary parameters only for the Capsule
(its second endpoint, with the radius in b.w); for a Polyline or TriMesh
both the vertex-range start and end are primary parameters, in a.x and
a.y, and b is zero. -/
theorem secondary_params_layout :
    (∀ pa pb r, (GpuShape.capsule pa pb r).b.x = pb.x
      ∧ (GpuShape.capsule pa pb r).b.y = pb.y
      ∧ (GpuShape.capsule pa pb r).b.z = pb.z
      ∧ (GpuShape.capsule pa pb r).b.w = r)
  ∧ (∀ rng : Nat × Nat, (GpuShape.polyline rng).a.x = rng.1
      ∧ (GpuShape.polyline rng).a.y = rng.2
      ∧ (GpuShape.polyline rng).b = ⟨0, 0, 0, 0⟩)
  ∧ (∀ rng : Nat × Nat, (GpuShape.trimesh rng).a.x = rng.1
      ∧ (GpuShape.trimesh rng).a.y = rng.2
      ∧ (GpuShape.trimesh rng).b = ⟨0, 0, 0, 0⟩) :=
  ⟨fun _ _ _ => ⟨rfl, rfl, rfl, rfl⟩, fun _ => ⟨rfl, rfl, rfl⟩, fun _ => ⟨rfl, rfl, rfl⟩⟩

/-- C8: shape conversion succeeds exactly on the supported kinds (ball,
cuboid, capsule, polyline, trimesh, height-field, and in 3-D cone and
cylinder) and returns none otherwise; a height-field is tessellated (by
the external parry tessellation), its vertices appended to the pool, and
the result carries the TriMesh tag (3-D) or Polyline tag (2-D) with the
appended range. -/
theorem from_parry_support :
    (∀ tt (s : TypedShape3) b,
      ((GpuShape.from_parry tt s b).1.isSome = true) ↔ supportedShape3 s = true)
  ∧ (∀ tp (s : TypedShape2) b,
      ((GpuShape.from_parry2 tp s b).1.isSome = true) ↔ supportedShape2 s = true)
  ∧ (∀ tt hf (b : ShapeBuffers),
      (GpuShape.from_parry tt (TypedShape3.HeightField hf) b).2.vertices
          = b.vertices ++ tt hf
      ∧ ∃ g, (GpuShape.from_parry tt (TypedShape3.HeightField hf) b).1 = some g
          ∧ g.shape_type = some ShapeType.TriMesh
          ∧ g.trimesh_rngs = some (b.vertices.length % 2 ^ 32,
              (b.vertices.length + (tt hf).length) % 2 ^ 32))
  ∧ (∀ tp hf (b : ShapeBuffers2),
      (GpuShape.from_parry2 tp (TypedShape2.HeightField hf) b).2.vertices
          = b.vertices ++ tp hf
      ∧ ∃ g, (GpuShape.from_parry2 tp (TypedShape2.HeightField hf) b).1 = some g
          ∧ g.shape_type = some ShapeType.Polyline
          ∧ g.polyline_rngs = some (b.vertices.length % 2 ^ 32,
              (b.vertices.length + (tp hf).length) % 2 ^ 32)) := by
  refine ⟨?_, ?_, ?_, ?_⟩
  · intro tt s b
    cases s <;> simp [GpuShape.from_parry, supportedShape3]
  · intro tp s b
    cases s <;> simp [GpuShape.from_parry2, supportedShape2]
  · intro tt hf b
    refine ⟨rfl, GpuShape.trimesh (b.vertices.length % 2 ^ 32,
      (b.vertices.length + (tt hf).length) % 2 ^ 32), ?_, ?_, ?_⟩
    · simp [GpuShape.from_parry, List.length_append]
    · rfl
    · rfl
  · intro tp hf b
    refine ⟨rfl, GpuShape.polyline (b.vertices.length % 2 ^ 32,
      (b.vertices.length + (tp hf).length) % 2 ^ 32), ?_, ?_, ?_⟩
    · simp [GpuShape.from_parry2, List.length_append]
    · rfl
    · rfl

/-- Length of the vertex pool after a sequence of conversions. -/
theorem encodeShapes_vertices_length (tt : HeightField3 → List Pt3)
    (shapes : List TypedShape3) (b0 : ShapeBuffers) :
    (encodeShapes tt shapes b0).2.vertices.length
      = b0.vertices.length + (shapes.map fun s => (appendedVerts3 tt s).length).sum := by
  induction shapes generalizing b0 with
  | nil => simp [encodeShapes]
  | cons s rest ih =>
    simp only [encodeShapes, from_parry_eq, List.map_cons, List.sum_cons]
    rw [ih]
    simp [List.length_append]
    omega

/-- Prefix sums of the per-shape vertex counts are monotone. -/
theorem take_map_sum_le (f : TypedShape3 → Nat) (l : List TypedShape3) (i j : Nat)
    (h : i ≤ j) : ((l.take i).map f).sum ≤ ((l.take j).map f).sum := by
  have hj : j = i + (j - i) := by omega
  rw [hj, List.take_add, List.map_append, List.sum_append]
  exact Nat.le_add_right _ _

/-- Every prefix sum is bounded by the total sum. -/
theorem take_map_sum_le_total (f : TypedShape3 → Nat) (l : List TypedShape3) (i : Nat) :
    ((l.take i).map f).sum ≤ (l.map f).sum := by
  by_cases h : i ≤ l.length
  · simpa [List.take_length] using take_map_sum_le f l i l.length h
  · rw [List.take_of_length_le (by omega)]

/-- A vertex-bearing shape encodes, from pool length `base`, to a record
whose decoded range is exactly [base, base + appended count). -/
theorem parryOut3_vertex (tt : HeightField3 → List Pt3) (s : TypedShape3)
    (hs : hasVertexData3 s = true) (base : Nat)
    (hlt : base + (appendedVerts3 tt s).length < 2 ^ 32) :
    ∃ g, parryOut3 tt s base = some g
      ∧ g.decodedRange = some (base, base + (appendedVerts3 tt s).length) := by
  have h1 : base % 2 ^ 32 = base := Nat.mod_eq_of_lt (by omega)
  cases s
  case Polyline vs =>
    refine ⟨_, rfl, ?_⟩
    rw [decodedRange_polyline]
    simp only [appendedVerts3] at hlt ⊢
    rw [h1, Nat.mod_eq_of_lt hlt]
  case TriMesh vs =>
    refine ⟨_, rfl, ?_⟩
    rw [decodedRange_trimesh]
    simp only [appendedVerts3] at hlt ⊢
    rw [h1, Nat.mod_eq_of_lt hlt]
  case HeightField hf =>
    refine ⟨_, rfl, ?_⟩
    rw [decodedRange_trimesh]
    simp only [appendedVerts3] at hlt ⊢
    rw [h1, Nat.mod_eq_of_lt hlt]
  all_goals simp [hasVertexData3] at hs

/-- Each shape of a back-to-back encoded sequence of vertex-bearing shapes
stores exactly the range [pool length before, pool length after). -/
theorem encodeShapes_ranges (tt : HeightField3 → List Pt3) (shapes : List TypedShape3)
    (b0 : ShapeBuffers) (hv : ∀ s ∈ shapes, hasVertexData3 s = true)
    (hcap : b0.vertices.length + (shapes.map fun s => (appendedVerts3 tt s).length).sum
      < 2 ^ 32) :
    ∀ i, i < shapes.length →
      ∃ g, (encodeShapes tt shapes b0).1[i]? = some (some g) ∧
        g.decodedRange = some
          (b0.vertices.length
            + ((shapes.take i).map fun s => (appendedVerts3 tt s).length).sum,
           b0.vertices.length
            + ((shapes.take (i + 1)).map fun s => (appendedVerts3 tt s).length).sum) := by
  induction shapes generalizing b0 with
  | nil => intro i hi; simp at hi
  | cons s rest ih =>
    intro i hi
    have hs : hasVertexData3 s = true := hv s (by simp)
    have hfp := from_parry_eq tt s b0
    cases i with
    | zero =>
      obtain ⟨g, hg, hgr⟩ := parryOut3_vertex tt s hs b0.vertices.length (by
        simp only [List.map_cons, List.sum_cons] at hcap
        omega)
      refine ⟨g, ?_, ?_⟩
      · simp only [encodeShapes]
        rw [hfp]
        simp [hg]
      · rw [hgr]
        simp
    | succ i =>
      have hv2 : ∀ t ∈ rest, hasVertexData3 t = true := fun t ht => hv t (by simp [ht])
      have hcap2 : (⟨b0.vertices ++ appendedVerts3 tt s⟩ : ShapeBuffers).vertices.length
          + (rest.map fun t => (appendedVerts3 tt t).length).sum < 2 ^ 32 := by
        simp only [List.map_cons, List.sum_cons] at hcap
        simp only [List.length_append]
        omega
      obtain ⟨g, hg, hgr⟩ :=
        ih ⟨b0.vertices ++ appendedVerts3 tt s⟩ hv2 hcap2 i (by simpa using hi)
      refine ⟨g, ?_, ?_⟩
      · simp only [encodeShapes]
        rw [hfp]
        simpa using hg
      · rw [hgr]
        simp only [List.take_succ_cons, List.map_cons, List.sum_cons, List.length_append]
        congr 2 <;> omega

/-- C3: back-to-back encoding of N vertex-bearing shapes into one shared
pool stores, for the i-th shape, exactly the range [pool length before its
append, pool length after its append); the ranges are therefore contiguous
(end of i = start of i + 1 by the shared prefix-sum formula), monotone in
insertion order (hence pairwise non-overlapping), and bounded by the final
pool length. -/
theorem vertex_ranges_contiguous (tt : HeightField3 → List Pt3)
    (shapes : List TypedShape3) (b0 : ShapeBuffers)
    (hv : ∀ s ∈ shapes, hasVertexData3 s = true)
    (hcap : b0.vertices.length + (shapes.map fun s => (appendedVerts3 tt s).length).sum
      < 2 ^ 32) :
    (encodeShapes tt shapes b0).2.vertices.length
        = b0.vertices.length + (shapes.map fun s => (appendedVerts3 tt s).length).sum
  ∧ (∀ i, i < shapes.length →
      ∃ g, (encodeShapes tt shapes b0).1[i]? = some (some g) ∧
        g.decodedRange = some
          (b0.vertices.length
            + ((shapes.take i).map fun s => (appendedVerts3 tt s).length).sum,
           b0.vertices.length
            + ((shapes.take (i + 1)).map fun s => (appendedVerts3 tt s).length).sum))
  ∧ (∀ i j, i ≤ j →
      b0.vertices.length + ((shapes.take i).map fun s => (appendedVerts3 tt s).length).sum
        ≤ b0.vertices.length
            + ((shapes.take j).map fun s => (appendedVerts3 tt s).length).sum)
  ∧ (∀ i, b0.vertices.length
        + ((shapes.take i).map fun s => (appendedVerts3 tt s).length).sum
      ≤ (encodeShapes tt shapes b0).2.vertices.length) := by
  refine ⟨encodeShapes_vertices_length tt shapes b0,
    encodeShapes_ranges tt shapes b0 hv hcap, ?_, ?_⟩
  · intro i j hij
    exact Nat.add_le_add_left (take_map_sum_le _ shapes i j hij) _
  · intro i
    rw [encodeShapes_vertices_length tt shapes b0]
    exact Nat.add_le_add_left (take_map_sum_le_total _ shapes i) _

/-- C3 witness: a 3-vertex polyline then a 2-vertex polyline appended into
one empty pool get the ranges [0, 3) and [3, 5) and the pool ends with 5
vertices (Scenario B of the specification). -/
theorem vertex_ranges_contiguous_witness :
    (encodeShapes (fun _ => [])
        [TypedShape3.Polyline [⟨0, 0, 0⟩, ⟨0, 0, 0⟩, ⟨0, 0, 0⟩],
         TypedShape3.Polyline [⟨1, 1, 1⟩, ⟨1, 1, 1⟩]] ⟨[]⟩).2.vertices.length = 5
  ∧ (∃ g, (encodeShapes (fun _ => [])
        [TypedShape3.Polyline [⟨0, 0, 0⟩, ⟨0, 0, 0⟩, ⟨0, 0, 0⟩],
         TypedShape3.Polyline [⟨1, 1, 1⟩, ⟨1, 1, 1⟩]] ⟨[]⟩).1[0]? = some (some g)
      ∧ g.decodedRange = some (0, 3))
  ∧ (∃ g, (encodeShapes (fun _ => [])
        [TypedShape3.Polyline [⟨0, 0, 0⟩, ⟨0, 0, 0⟩, ⟨0, 0, 0⟩],
         TypedShape3.Polyline [⟨1, 1, 1⟩, ⟨1, 1, 1⟩]] ⟨[]⟩).1[1]? = some (some g)
      ∧ g.decodedRange = some (3, 5)) := by
  have h := vertex_ranges_contiguous (fun _ => [])
    [TypedShape3.Polyline [⟨0, 0, 0⟩, ⟨0, 0, 0⟩, ⟨0, 0, 0⟩],
     TypedShape3.Polyline [⟨1, 1, 1⟩, ⟨1, 1, 1⟩]] ⟨[]⟩
    (by decide) (by decide)
  obtain ⟨h1, h2, -, -⟩ := h
  refine ⟨by rw [h1]; decide, ?_, ?_⟩
  · obtain ⟨g, hg1, hg2⟩ := h2 0 (by decide)
    exact ⟨g, hg1, by rw [hg2]; decide⟩
  · obtain ⟨g, hg1, hg2⟩ := h2 1 (by decide)
    exact ⟨g, hg1, by rw [hg2]; decide⟩

/-- Eliminating one successful bind in an Except chain. -/
theorem bindOk {ε α : Type} {x : Except ε Unit} {f : Unit → Except ε α} {b : α}
    (h : x >>= f = Except.ok b) : f () = Except.ok b := by
  cases x with
  | error e => simp [Bind.bind, Except.bind] at h
  | ok u => cases u; simpa [Bind.bind, Except.bind] using h

/-- A successful GpuBodySet::new returns exactly the transposed columns,
the shared buffers, and the owner-id list. -/
theorem new_ok {ε Pose : Type} {up : ∀ {α : Type}, List α → Except ε Unit}
    {bodies : List (BodyDesc Pose)} {ids : List Nat} {bufs : ShapeBuffers2}
    {s : GpuBodySet Pose}
    (h : GpuBodySet.new up bodies ids bufs = Except.ok s) :
    s = ⟨bodies.length % 2 ^ 32, bodies.map (fun b => b.shape),
         bodies.map (fun b => b.mprops), bodies.map (fun b => b.local_mprops),
         bodies.map (fun b => b.vel), bodies.map (fun b => b.pose),
         bodies.map (fun b => b.shape), bufs.vertices, bufs.vertices, ids⟩ := by
  unfold GpuBodySet.new at h
  replace h := bindOk h
  replace h := bindOk h
  replace h := bindOk h
  replace h := bindOk h
  replace h := bindOk h
  replace h := bindOk h
  replace h := bindOk h
  replace h := bindOk h
  simpa [pure, Except.pure] using h.symm

/-- Converting MassProperties::zero yields the zero GPU mass-property. -/
theorem fromMassProperties_zero :
    GpuMassProperties.fromMassProperties MassProperties.zero = GpuMassProperties.zeroProps := by
  simp [GpuMassProperties.fromMassProperties, MassProperties.zero, GpuMassProperties.zeroProps]

/-- C4: a successful set construction has len() equal to the number of
descriptors (exactly, below 2 ^ 32) and every per-body column buffer of
exactly that many entries; construction from an empty descriptor list, and
from an empty coupling list, succeeds with len() = 0 on a functioning
backend. -/
theorem bodyset_new_lengths {ε Pose : Type} :
    (∀ (up : ∀ {α : Type}, List α → Except ε Unit) (bodies : List (BodyDesc Pose))
        (ids : List Nat) (bufs : ShapeBuffers2) (s : GpuBodySet Pose),
      GpuBodySet.new up bodies ids bufs = Except.ok s →
        s.len = bodies.length % 2 ^ 32
      ∧ (bodies.length < 2 ^ 32 → s.len = bodies.length)
      ∧ s.mprops.length = bodies.length ∧ s.local_mprops.length = bodies.length
      ∧ s.vels.length = bodies.length ∧ s.poses.length = bodies.length
      ∧ s.shapes.length = bodies.length)
  ∧ (∃ s0 : GpuBodySet Pose,
      GpuBodySet.new (alwaysOkUpload ε) [] [] ⟨[]⟩ = Except.ok s0 ∧ s0.len = 0)
  ∧ (∀ (Iso : Type) (tp : HeightField2 → List Pt2)
        (tb : MassProperties → Iso → MassProperties) (tg : Iso → Pose)
        (bodies : Nat → RigidBody Iso) (colliders : Nat → Collider),
      ∃ s0 : GpuBodySet Pose,
        GpuBodySet.from_rapier (alwaysOkUpload ε) tp tb tg bodies colliders []
          = some (Except.ok s0) ∧ s0.len = 0) := by
  refine ⟨?_, ?_, ?_⟩
  · intro up bodies ids bufs s h
    have hs := new_ok h
    subst hs
    exact ⟨rfl, fun hlt => Nat.mod_eq_of_lt hlt, by simp, by simp, by simp, by simp, by simp⟩
  · exact ⟨⟨0, [], [], [], [], [], [], [], [], []⟩, rfl, rfl⟩
  · intro Iso tp tb tg bodies colliders
    exact ⟨⟨0, [], [], [], [], [], [], [], [], []⟩, rfl, rfl⟩

/-- C4 witness: a one-descriptor construction on a functioning backend. -/
theorem bodyset_new_lengths_witness :
    ∃ s : GpuBodySet Unit,
      GpuBodySet.new (alwaysOkUpload Unit) [BodyDesc.default ()] [] ⟨[]⟩ = Except.ok s
      ∧ s.len = 1 ∧ s.mprops.length = 1 := by
  obtain ⟨s, hs⟩ : ∃ s, GpuBodySet.new (alwaysOkUpload Unit) [BodyDesc.default ()]
      ([] : List Nat) (⟨[]⟩ : ShapeBuffers2) = Except.ok s := ⟨_, rfl⟩
  have h := bodyset_new_lengths.1 (alwaysOkUpload Unit)
    [BodyDesc.default ()] [] (⟨[]⟩ : ShapeBuffers2) s hs
  exact ⟨s, hs, h.2.1 (by decide), by simpa using h.2.2.1⟩

/-- The two-ways condition evaluated as the source boolean, false case. -/
theorem two_ways_false {Iso : Type} (rb : RigidBody Iso) (mode : BodyCoupling)
    (h : ¬(rb.is_dynamic = true ∧ mode = BodyCoupling.TwoWays)) :
    (rb.is_dynamic && decide (mode = BodyCoupling.TwoWays)) = false := by
  cases hd : rb.is_dynamic <;> cases mode <;> simp_all

/-- C2: the descriptor built for a processed coupling entry carries the
body's converted local inertial data and its pose-transformed version when
the body is dynamic and the mode is TwoWays, and the zero mass-property in
both slots otherwise, regardless of the body's true mass. -/
theorem coupling_massprops_policy {Iso Pose : Type}
    (tp : HeightField2 → List Pt2) (tb : MassProperties → Iso → MassProperties)
    (tg : Iso → Pose) (bodies : Nat → RigidBody Iso) (colliders : Nat → Collider)
    (st : LoopState Pose) (co_id : Nat) (e : BodyCouplingEntry) (st2 : LoopState Pose)
    (h : couplingStep tp tb tg bodies colliders st co_id e = some st2) :
    ∃ d, st2.descs = st.descs ++ [d]
      ∧ (((bodies e.body).is_dynamic = true ∧ e.mode = BodyCoupling.TwoWays) →
          d.local_mprops = GpuMassProperties.fromMassProperties (bodies e.body).local_mprops
          ∧ d.mprops = GpuMassProperties.fromMassProperties
              (tb (bodies e.body).local_mprops (bodies e.body).position))
      ∧ ((¬((bodies e.body).is_dynamic = true ∧ e.mode = BodyCoupling.TwoWays)) →
          d.local_mprops = GpuMassProperties.zeroProps
          ∧ d.mprops = GpuMassProperties.zeroProps) := by
  unfold couplingStep at h
  rw [from_parry2_eq] at h
  cases hp : parryOut2 tp (colliders e.collider).shape st.bufs.vertices.length with
  | none => rw [hp] at h; simp at h
  | some shape =>
    rw [hp] at h
    simp only [Option.some.injEq] at h
    subst h
    refine ⟨mkBodyDesc tb tg (bodies e.body) e.mode shape, rfl, ?_, ?_⟩
    · rintro ⟨hdyn, hmode⟩
      simp [mkBodyDesc, hdyn, hmode]
    · intro hneg
      have hb := two_ways_false (bodies e.body) e.mode hneg
      simp [mkBodyDesc, hb, fromMassProperties_zero]

/-- C2 witness: a dynamic body coupled TwoWays gets its own converted mass
properties, evaluated on a concrete entry. -/
theorem coupling_massprops_policy_witness :
    ∃ st2 : LoopState Unit,
      couplingStep demoTp demoTb demoTg demoBodies demoColliders
          ⟨⟨[]⟩, [], []⟩ 0 demoEntry = some st2
      ∧ ∃ d, st2.descs = [] ++ [d]
        ∧ d.local_mprops = GpuMassProperties.fromMassProperties demoRB.local_mprops
        ∧ d.mprops = GpuMassProperties.fromMassProperties
            (demoTb demoRB.local_mprops demoRB.position) := by
  refine ⟨_, rfl, ?_⟩
  obtain ⟨d, hd1, hd2, -⟩ := coupling_massprops_policy demoTp demoTb demoTg demoBodies
    demoColliders ⟨⟨[]⟩, [], []⟩ 0 demoEntry _ rfl
  obtain ⟨h2, h3⟩ := hd2 ⟨rfl, rfl⟩
  exact ⟨d, hd1, h2, h3⟩

/-- Invariant of the from_rapier loop: the owner-id list grows by one copy
of the (truncated) entry index per appended vertex, the vertex pool by the
per-entry appended vertices, and the descriptor list by one per entry. -/
theorem couplingLoop_spec {Iso Pose : Type} (tp : HeightField2 → List Pt2)
    (tb : MassProperties → Iso → MassProperties) (tg : Iso → Pose)
    (bodies : Nat → RigidBody Iso) (colliders : Nat → Collider) :
    ∀ (l : List BodyCouplingEntry) (i : Nat) (st st2 : LoopState Pose),
      couplingLoop tp tb tg bodies colliders i l st = some st2 →
        st2.ids = st.ids ++ idsFor tp colliders i l
      ∧ st2.bufs.vertices = st.bufs.vertices ++ vtxFor tp colliders l
      ∧ st2.descs.length = st.descs.length + l.length := by
  intro l
  induction l with
  | nil =>
    intro i st st2 h
    simp only [couplingLoop, Option.some.injEq] at h
    subst h
    simp [idsFor, vtxFor]
  | cons e rest ih =>
    intro i st st2 h
    simp only [couplingLoop] at h
    cases hstep : couplingStep tp tb tg bodies colliders st i e with
    | none => rw [hstep] at h; simp at h
    | some stm =>
      rw [hstep] at h
      unfold couplingStep at hstep
      rw [from_parry2_eq] at hstep
      cases hp : parryOut2 tp (colliders e.collider).shape st.bufs.vertices.length with
      | none => rw [hp] at hstep; simp at hstep
      | some shape =>
        rw [hp] at hstep
        simp only [Option.some.injEq] at hstep
        obtain ⟨h1, h2, h3⟩ := ih (i + 1) stm st2 h
        subst hstep
        refine ⟨?_, ?_, ?_⟩
        · rw [h1]
          simp [idsFor, List.length_append, List.append_assoc]
        · rw [h2]
          simp [vtxFor, List.append_assoc]
        · rw [h3]
          simp [List.length_append]
          omega

/-- The owner-id list and the appended-vertex list always have equal
length. -/
theorem idsFor_length (tp : HeightField2 → List Pt2) (colliders : Nat → Collider) :
    ∀ (l : List BodyCouplingEntry) (i : Nat),
      (idsFor tp colliders i l).length = (vtxFor tp colliders l).length := by
  intro l
  induction l with
  | nil => intro i; rfl
  | cons e rest ih =>
    intro i
    simp [idsFor, vtxFor, List.length_append, ih (i + 1)]

/-- While the entry indices stay below 2 ^ 32 the truncated owner ids are
the exact entry indices. -/
theorem idsFor_eq_plain (tp : HeightField2 → List Pt2) (colliders : Nat → Collider) :
    ∀ (l : List BodyCouplingEntry) (i : Nat), i + l.length ≤ 2 ^ 32 →
      idsFor tp colliders i l = idsForPlain tp colliders i l := by
  intro l
  induction l with
  | nil => intro i _; rfl
  | cons e rest ih =>
    intro i hle
    simp only [idsFor, idsForPlain]
    rw [Nat.mod_eq_of_lt (by simp at hle; omega), ih (i + 1) (by simp at hle; omega)]

/-- C5: after set construction from coupling entries, the vertex-owner-id
buffer consists, entry by entry in iteration order, of one copy of the
entry index (truncated to u32; exact while the entry count stays below
2 ^ 32) per vertex that entry's shape conversion appended, and its length
equals the vertex pool's length. -/
theorem vertex_owner_ids {ε Iso Pose : Type} (up : ∀ {α : Type}, List α → Except ε Unit)
    (tp : HeightField2 → List Pt2) (tb : MassProperties → Iso → MassProperties)
    (tg : Iso → Pose) (bodies : Nat → RigidBody Iso) (colliders : Nat → Collider)
    (coupling : List BodyCouplingEntry) (s : GpuBodySet Pose)
    (h : GpuBodySet.from_rapier up tp tb tg bodies colliders coupling
      = some (Except.ok s)) :
    s.shapes_vertex_collider_id = idsFor tp colliders 0 coupling
  ∧ s.shapes_vertex_buffers = vtxFor tp colliders coupling
  ∧ s.shapes_vertex_collider_id.length = s.shapes_vertex_buffers.length
  ∧ (coupling.length ≤ 2 ^ 32 →
      s.shapes_vertex_collider_id = idsForPlain tp colliders 0 coupling) := by
  unfold GpuBodySet.from_rapier at h
  cases hl : couplingLoop tp tb tg bodies colliders 0 coupling ⟨⟨[]⟩, [], []⟩ with
  | none => rw [hl] at h; simp at h
  | some st =>
    rw [hl] at h
    replace h : GpuBodySet.new up st.descs st.ids st.bufs = Except.ok s := by
      simpa using h
    obtain ⟨h1, h2, -⟩ := couplingLoop_spec tp tb tg bodies colliders coupling 0 _ _ hl
    have hs := new_ok h
    subst hs
    simp only [List.nil_append] at h1 h2
    refine ⟨h1, h2, ?_, ?_⟩
    · rw [h1, h2, idsFor_length]
    · intro hle
      rw [h1, idsFor_eq_plain tp colliders coupling 0 (by omega)]

/-- C5 witness: one entry whose collider is a 2-vertex polyline yields the
owner-id list [0, 0] parallel to a 2-vertex pool. -/
theorem vertex_owner_ids_witness :
    ∃ s : GpuBodySet Unit,
      GpuBodySet.from_rapier (alwaysOkUpload Unit) demoTp demoTb demoTg demoBodies
          demoCollidersPoly [demoEntry] = some (Except.ok s)
      ∧ s.shapes_vertex_collider_id = [0, 0]
      ∧ s.shapes_vertex_buffers.length = 2
      ∧ s.shapes_vertex_collider_id.length = s.shapes_vertex_buffers.length := by
  obtain ⟨s, hs⟩ : ∃ s, GpuBodySet.from_rapier (alwaysOkUpload Unit) demoTp demoTb demoTg
      demoBodies demoCollidersPoly [demoEntry] = some (Except.ok s) := ⟨_, rfl⟩
  obtain ⟨h1, h2, h3, -⟩ := vertex_owner_ids (alwaysOkUpload Unit) demoTp demoTb demoTg
    demoBodies demoCollidersPoly [demoEntry] s hs
  refine ⟨s, hs, ?_, ?_, h3⟩
  · rw [h1]; decide
  · rw [h2]; decide

/-- C9: the integration dispatcher records exactly one compute dispatch,
with grid size (len, 1, 1) and the body set's world mass-properties, local
mass-properties, pose and velocity buffers as the kernel arguments, and
propagates the backend's submission error unchanged. -/
theorem integrate_launch_dispatch {ε Pose : Type}
    (submit : DispatchRecord Pose → Option ε) (pass : List (DispatchRecord Pose))
    (bodies : GpuBodySet Pose) :
    (∀ e, submit ⟨⟨bodies.mprops, bodies.local_mprops, bodies.poses, bodies.vels⟩,
        (bodies.len, 1, 1)⟩ = some e →
      WgIntegrate.launch submit pass bodies = Except.error e)
  ∧ (submit ⟨⟨bodies.mprops, bodies.local_mprops, bodies.poses, bodies.vels⟩,
        (bodies.len, 1, 1)⟩ = none →
      WgIntegrate.launch submit pass bodies = Except.ok
        (pass ++ [⟨⟨bodies.mprops, bodies.local_mprops, bodies.poses, bodies.vels⟩,
          (bodies.len, 1, 1)⟩])) := by
  constructor
  · intro e he
    unfold WgIntegrate.launch GpuFunction.launch
    rw [he]
  · intro hn
    unfold WgIntegrate.launch GpuFunction.launch
    rw [hn]

/-- C9 witness: launching over the empty body set on an accepting backend
records the single degenerate dispatch of grid (0, 1, 1). -/
theorem integrate_launch_dispatch_witness :
    WgIntegrate.launch (fun _ => (none : Option Unit)) [] demoSet
      = Except.ok [⟨⟨demoSet.mprops, demoSet.local_mprops, demoSet.poses, demoSet.vels⟩,
          (demoSet.len, 1, 1)⟩] := by
  have h := (integrate_launch_dispatch (fun _ => (none : Option Unit)) [] demoSet).2 rfl
  simpa using h

/-- C10: the Default GpuMassProperties is the unit mass-property (inverse
mass 1 broadcast, identity inverse angular inertia — scalar 1 in 2-D, the
identity matrix in 3-D, zero center of mass), which differs from the zero
mass-property used for one-way coupling; a Default BodyDesc therefore
carries movable unit mass properties in both slots. -/
theorem default_massprops_movable :
    GpuMassProperties.default = ⟨1, (1, 1), (0, 0)⟩
  ∧ GpuMassProperties.fromMassProperties MassProperties.zero = GpuMassProperties.zeroProps
  ∧ GpuMassProperties.default ≠ GpuMassProperties.fromMassProperties MassProperties.zero
  ∧ GpuMassProperties3.default.inv_inertia = 1
  ∧ (∀ reconstruct, GpuMassProperties3.default
      ≠ GpuMassProperties3.fromMassProperties reconstruct MassProperties3.zero)
  ∧ (∀ (Pose : Type) (p : Pose),
      (BodyDesc.default p).local_mprops = GpuMassProperties.default
      ∧ (BodyDesc.default p).mprops = GpuMassProperties.default) := by
  refine ⟨rfl, fromMassProperties_zero, ?_, rfl, ?_, fun Pose p => ⟨rfl, rfl⟩⟩
  · rw [fromMassProperties_zero]
    decide
  · intro reconstruct hEq
    have hm := congrArg GpuMassProperties3.inv_mass hEq
    simp only [GpuMassProperties3.default, GpuMassProperties3.fromMassProperties,
      MassProperties3.zero] at hm
    exact absurd hm (by decide)

/-- C10 witness: the Default BodyDesc at a concrete pose has the unit
default mass properties. -/
theorem default_massprops_movable_witness :
    (BodyDesc.default ()).local_mprops = GpuMassProperties.default
    ∧ (BodyDesc.default ()).mprops = GpuMassProperties.default :=
  default_massprops_movable.2.2.2.2.2 Unit ()

/-- C1 witness: Scenario A — a ball of radius 2.0 (bit pattern 0x40000000)
decodes as Ball with the radius in a.x. -/
theorem shape_roundtrip_tags_witness :
    (GpuShape.ball 0x40000000).shape_type = some ShapeType.Ball
    ∧ (GpuShape.ball 0x40000000).a.x = 0x40000000
    ∧ (GpuShape.polyline (0, 3)).polyline_rngs = some (0, 3) :=
  ⟨(shape_roundtrip_tags.1 0x40000000).1, rfl, shape_roundtrip_tags.2.2.2.2.2.2.2.1 (0, 3)⟩

/-- C6 witness: Scenario E — the range decoders fail on a Ball-tagged
shape, and shape_type fails on the unknown tag 7. -/
theorem decoder_panic_conditions_witness :
    (GpuShape.ball 5).polyline_rngs = none
    ∧ (GpuShape.ball 5).trimesh_rngs = none
    ∧ (⟨⟨0, 0, 0, 7⟩, ⟨0, 0, 0, 0⟩⟩ : GpuShape).shape_type = none :=
  ⟨(decoder_panic_conditions.2.2.2 5).1, (decoder_panic_conditions.2.2.2 5).2,
   (decoder_panic_conditions.1 ⟨⟨0, 0, 0, 7⟩, ⟨0, 0, 0, 0⟩⟩).mpr (by decide)⟩

/-- C7 witness: a concrete capsule stores its second endpoint in b.xyz and
its radius in b.w. -/
theorem secondary_params_layout_witness :
    (GpuShape.capsule ⟨1, 2, 3⟩ ⟨4, 5, 6⟩ 7).b.x = 4
    ∧ (GpuShape.capsule ⟨1, 2, 3⟩ ⟨4, 5, 6⟩ 7).b.w = 7 :=
  ⟨(secondary_params_layout.1 ⟨1, 2, 3⟩ ⟨4, 5, 6⟩ 7).1,
   (secondary_params_layout.1 ⟨1, 2, 3⟩ ⟨4, 5, 6⟩ 7).2.2.2⟩

/-- C8 witness: a 3-D segment (no GPU encoding) converts to none; a 2-D
height-field tessellated to two vertices encodes as a Polyline of range
[0, 2). -/
theorem from_parry_support_witness :
    ((GpuShape.from_parry (fun _ => []) (TypedShape3.Segment ⟨0, 0, 0⟩ ⟨1, 1, 1⟩)
        ⟨[]⟩).1.isSome = true ↔ supportedShape3 (TypedShape3.Segment ⟨0, 0, 0⟩ ⟨1, 1, 1⟩) = true)
    ∧ (∃ g, (GpuShape.from_parry2 (fun _ => [⟨1, 1⟩, ⟨2, 2⟩])
        (TypedShape2.HeightField ⟨[]⟩) ⟨[]⟩).1 = some g
      ∧ g.shape_type = some ShapeType.Polyline
      ∧ g.polyline_rngs = some (0 % 2 ^ 32, (0 + 2) % 2 ^ 32)) := by
  constructor
  · exact from_parry_support.1 (fun _ => []) (TypedShape3.Segment ⟨0, 0, 0⟩ ⟨1, 1, 1⟩) ⟨[]⟩
  · obtain ⟨-, g, hg1, hg2, hg3⟩ := from_parry_support.2.2.2 (fun _ => [⟨1, 1⟩, ⟨2, 2⟩])
      (⟨[]⟩ : HeightField2) (⟨[]⟩ : ShapeBuffers2)
    exact ⟨g, hg1, hg2, hg3⟩

end Nexus
